import Mathlib

/-!
Shallow embedding of `src/streamlit_app.py` (a Streamlit front end that
validates a protein sequence, POSTs it to the ESMFold API, renders the
returned PDB text, and shows analysis metrics), together with theorems
settling the frozen claims about it.

Strings are modelled as `List Char`.  Python's `str.upper()` is modelled
per character by `Char.toUpper` (faithful on ASCII, which is the only
range the program's alphabet and messages use).
-/

namespace PSP

/-- The 20-letter amino-acid character class of the pattern on line 42,
`[ACDEFGHIKLMNPQRSTVWY]`. -/
def aminoAlphabet : List Char :=
  ['A', 'C', 'D', 'E', 'F', 'G', 'H', 'I', 'K', 'L',
   'M', 'N', 'P', 'Q', 'R', 'S', 'T', 'V', 'W', 'Y']

/-- Membership in the amino-acid character class. -/
def isAmino (c : Char) : Bool := aminoAlphabet.contains c

/-- Line 39: `cleaned_sequence = sequence.replace(' ', '').upper()`.
`str.replace(' ', '')` deletes every occurrence of the space character
(and nothing else); `str.upper()` uppercases each character. -/
def clean_sequence (s : List Char) : List Char :=
  (s.filter (fun c => c != ' ')).map Char.toUpper

/-- Line 42: `re.match(r'^[ACDEFGHIKLMNPQRSTVWY]+$', cleaned_sequence)`.
In Python, `re.match` anchors at the start, and `$` matches at the end of
the string or just before a newline at the end of the string.  Hence the
pattern accepts exactly: a nonempty all-amino string, or a nonempty
all-amino string followed by one final newline character. -/
def matches_aa_pattern (s : List Char) : Bool :=
  let core := if s.getLast? = some '\n' then s.dropLast else s
  !core.isEmpty && core.all isAmino

/-- Outcome of `validate_sequence` (lines 34-55): the cleaned sequence on
success, or one of the three distinct `st.error` messages on failure. -/
inductive ValidationOutcome where
  /-- Success: `return cleaned_sequence` (line 55). -/
  | ok (cleaned : List Char)
  /-- Failure `st.error('Invalid protein sequence. Use standard amino acid letters.')`, `return None`. -/
  | invalidChars
  /-- Failure `st.error('Sequence too short. Minimum 10 amino acids required.')`, `return None`. -/
  | tooShort
  /-- Failure `st.error('Sequence too long. Maximum 1000 amino acids supported.')`, `return None`. -/
  | tooLong
deriving DecidableEq

/-- Lines 34-55: clean, check the character pattern, then the length
bounds, in that order. -/
def validate_sequence (sequence : List Char) : ValidationOutcome :=
  let cleaned_sequence := clean_sequence sequence
  if !matches_aa_pattern cleaned_sequence then .invalidChars
  else if cleaned_sequence.length < 10 then .tooShort
  else if cleaned_sequence.length > 1000 then .tooLong
  else .ok cleaned_sequence

/-- The Python return value of `validate_sequence`: the cleaned string on
success, `None` on any failure. -/
def validationValue : ValidationOutcome → Option (List Char)
  | .ok cleaned => some cleaned
  | _ => none

/-- Outcome of the one `requests.post` on lines 66-71: either a
`requests.RequestException` is raised during the transfer (connection
failure, timeout, too many redirects, ...), or a response with a status
code and a body arrives. -/
inductive HttpOutcome where
  /-- The POST itself raised a `requests.RequestException`. -/
  | transportError (msg : List Char)
  /-- A response arrived, with its HTTP status code and decoded body. -/
  | response (status : Nat) (body : List Char)

/-- Semantics of `requests.Response.raise_for_status()` (line 72): raises `HTTPError`
(a `RequestException`) exactly when the status code is a 4xx client error
or a 5xx server error; any other status, including 1xx and 3xx, returns
normally. -/
def raise_for_status_raises (status : Nat) : Bool :=
  decide (400 ≤ status ∧ status < 600)

/-- Does the POST on lines 66-72 end in the `except requests.RequestException`
branch for this outcome? -/
def requestFails : HttpOutcome → Bool
  | .transportError _ => true
  | .response status _ => raise_for_status_raises status

/-- What `predict_structure` did: its return value (`None` on failure) and
whether it called `st.error` (line 76). -/
structure PredictOutcome where
  pdb : Option (List Char)
  errorShown : Bool
deriving DecidableEq

/-- Lines 57-77: POST the sequence, raise for a bad status, return the
decoded body; a `requests.RequestException` is caught, reported with
`st.error`, and turned into `None`.  The network is abstracted as a map
`http` from the posted body to the outcome of the transfer. -/
def predict_structure (http : List Char → HttpOutcome) (sequence : List Char) :
    PredictOutcome :=
  match http sequence with
  | .transportError _ => { pdb := none, errorShown := true }
  | .response status body =>
      if raise_for_status_raises status then { pdb := none, errorShown := true }
      else { pdb := some body, errorShown := false }

/-- A value of the `style_options` dict on lines 87-93: one py3Dmol style
specification. -/
inductive StyleSpec where
  /-- Value `{'cartoon': {'color': ...}}`. -/
  | cartoon (color : List Char)
  /-- Value `{'stick': {}}`. -/
  | stick
  /-- Value `{'sphere': {'scale': ...}}`. -/
  | sphere (scale : ℚ)
  /-- Value `{'cross': {'scale': ...}}`. -/
  | cross (scale : ℚ)
  /-- Value `{'ribbon': {}}`. -/
  | ribbon
deriving DecidableEq

/-- The `style_options` dict lookup (lines 87-93): `style_options.get(style)`
without a default. -/
def style_options (key : String) : Option StyleSpec :=
  if key = "Cartoon (Spectrum)" then some (.cartoon "spectrum".data)
  else if key = "Stick" then some .stick
  else if key = "Sphere" then some (.sphere (1 / 2))
  else if key = "Cross" then some (.cross 1)
  else if key = "Ribbon" then some .ribbon
  else none

/-- The py3Dmol view configuration produced by `render_mol` (lines 79-100). -/
structure ViewConfig where
  /-- The text passed to `pdbview.addModel(pdb, 'pdb')`. -/
  model : List Char
  /-- The argument of `pdbview.setStyle(...)` on line 95. -/
  style : StyleSpec
  /-- Argument of `pdbview.setBackgroundColor(...)`. -/
  backgroundColor : List Char
  /-- Argument of `pdbview.spin(...)`. -/
  spin : Bool
deriving DecidableEq

/-- Lines 79-100: load the structure text, resolve the style with
`style_options.get(style, {'cartoon': {'color': 'spectrum'}})`, and set the
fixed view parameters. -/
def render_mol (pdb : List Char) (style : String) : ViewConfig :=
  { model := pdb,
    style := (style_options style).getD (.cartoon "spectrum".data),
    backgroundColor := "white".data,
    spin := true }

/-- The numpy mean of `struct.b_factor` (line 169), over exact rationals. -/
def listMean (l : List ℚ) : ℚ := l.sum / l.length

/-- The external state one click of the Predict button runs against. -/
structure Env where
  /-- Outcome of the HTTP POST, as a function of the posted body. -/
  http : List Char → HttpOutcome
  /-- The `b_factor` column that `bsio.load_structure('predicted.pdb', ...)`
  (line 168) would read: `none` when the file is missing or unreadable (the
  raised exception is not caught anywhere in `main`), `some` column
  otherwise.  Note this file is never written by the program. -/
  fileBFactors : Option (List ℚ)
  /-- Whether `from Bio.SeqUtils.ProtParam import ProteinAnalysis`
  succeeded (lines 9-13). -/
  biopythonAvailable : Bool
  /-- Whether the `ProteinAnalysis` computations inside the `try` of
  `analyze_protein_sequence` (lines 107-127) run without raising. -/
  analysisOk : Bool

/-- Observable record of one click of the Predict button: which
operations ran, with which arguments, and which messages were shown. -/
structure Trace where
  /-- Result of `validate_sequence(txt)` (line 153). -/
  validation : ValidationOutcome
  /-- Arguments of the calls to `predict_structure` (line 157). -/
  predictCalls : List (List Char) := []
  /-- Whether `st.error` ran inside `predict_structure` (line 76). -/
  predictErrorShown : Bool := false
  /-- Whether `st.success("Structure prediction completed!")` ran (line 161). -/
  successShown : Bool := false
  /-- The view configurations built by calls to `render_mol` (line 165). -/
  renderCalls : List ViewConfig := []
  /-- The `b_value` reported by `st.info(f'plDDT Score: ...')` (lines
  169-173); display rounding to 4 decimal places is a float-formatting
  detail not modelled. -/
  plddtShown : Option ℚ := none
  /-- The `data` argument of `st.download_button` (line 179). -/
  downloadPayload : Option (List Char) := none
  /-- Arguments of the calls to `analyze_protein_sequence` (line 186). -/
  analyzeCalls : List (List Char) := []
  /-- Whether `st.warning(f"Protein analysis error: ...")` ran (line 130). -/
  analysisWarning : Bool := false
  /-- Whether `st.info("Install Biopython ...")` ran (line 132). -/
  analysisInfoShown : Bool := false
  /-- Whether the action died with an uncaught exception (the only such
  point is the `bsio.load_structure` call on line 168). -/
  crashed : Bool := false

/-- Lines 151-186, the body of `if st.sidebar.button('Predict Structure'):`.
`if validated_seq:` and `if pdb_string:` are Python truthiness tests, false
for `None` and for the empty string. -/
def run_predict_action (env : Env) (txt : List Char) (visualization_style : String) :
    Trace :=
  let validated_seq := validate_sequence txt
  match validationValue validated_seq with
  | none => { validation := validated_seq }
  | some seq =>
    if seq.isEmpty then { validation := validated_seq }
    else
      let pr := predict_structure env.http seq
      match pr.pdb with
      | none =>
        { validation := validated_seq, predictCalls := [seq],
          predictErrorShown := pr.errorShown }
      | some pdb_string =>
        if pdb_string.isEmpty then
          { validation := validated_seq, predictCalls := [seq],
            predictErrorShown := pr.errorShown }
        else
          match env.fileBFactors with
          | none =>
            { validation := validated_seq, predictCalls := [seq],
              predictErrorShown := pr.errorShown, successShown := true,
              renderCalls := [render_mol pdb_string visualization_style],
              crashed := true }
          | some b_factor =>
            { validation := validated_seq, predictCalls := [seq],
              predictErrorShown := pr.errorShown, successShown := true,
              renderCalls := [render_mol pdb_string visualization_style],
              plddtShown := some (listMean b_factor),
              downloadPayload := some pdb_string,
              analyzeCalls := [seq],
              analysisWarning := env.biopythonAvailable && !env.analysisOk,
              analysisInfoShown := !env.biopythonAvailable }

/-- A concrete environment for closed evaluations: every POST gets the
fixed outcome `out`, the file named `predicted.pdb` parses with b-factor
column `[50, 60]`, and Biopython availability / analysis success are as
given. -/
def testEnv (out : HttpOutcome) (bio analysisSucceeds : Bool) : Env :=
  { http := fun _ => out,
    fileBFactors := some [50, 60],
    biopythonAvailable := bio,
    analysisOk := analysisSucceeds }

/-! Helper lemmas. -/

theorem mem_of_getLast?_eq {l : List Char} {a : Char} (h : l.getLast? = some a) :
    a ∈ l := by
  have heq := List.dropLast_append_getLast? a h
  rw [← heq]
  exact List.mem_append_right _ (List.mem_singleton.mpr rfl)

theorem matches_aa_pattern_of_all_amino {s : List Char}
    (h1 : s.all isAmino = true) (h2 : s ≠ []) :
    matches_aa_pattern s = true := by
  have hn : ¬ s.getLast? = some '\n' := by
    intro hl
    have hm : '\n' ∈ s := mem_of_getLast?_eq hl
    have hbad := List.all_eq_true.mp h1 _ hm
    simp [isAmino, aminoAlphabet] at hbad
  simp only [matches_aa_pattern, if_neg hn]
  simp [h1, h2]

theorem matches_aa_pattern_eq_false_of_bad {s : List Char} {c : Char}
    (hc : c ∈ s) (hn : c ≠ '\n') (hbad : isAmino c = false) :
    matches_aa_pattern s = false := by
  by_cases hl : s.getLast? = some '\n'
  · have hdrop : c ∈ s.dropLast := by
      have heq := List.dropLast_append_getLast? '\n' hl
      rw [← heq] at hc
      rcases List.mem_append.mp hc with h | h
      · exact h
      · exact absurd (List.mem_singleton.mp h) hn
    simp only [matches_aa_pattern, if_pos hl]
    have : s.dropLast.all isAmino = false := by
      rw [List.all_eq_false]
      exact ⟨c, hdrop, by simp [hbad]⟩
    simp [this]
  · simp only [matches_aa_pattern, if_neg hl]
    have : s.all isAmino = false := by
      rw [List.all_eq_false]
      exact ⟨c, hc, by simp [hbad]⟩
    simp [this]

theorem matches_aa_pattern_eq_false_of_newline {s : List Char}
    (hc : '\n' ∈ s) (hn : ¬ s.getLast? = some '\n') :
    matches_aa_pattern s = false := by
  simp only [matches_aa_pattern, if_neg hn]
  have : s.all isAmino = false := by
    rw [List.all_eq_false]
    exact ⟨'\n', hc, by simp [isAmino, aminoAlphabet]⟩
  simp [this]

theorem validate_sequence_eq_ok {s : List Char}
    (h1 : matches_aa_pattern (clean_sequence s) = true)
    (h2 : 10 ≤ (clean_sequence s).length)
    (h3 : (clean_sequence s).length ≤ 1000) :
    validate_sequence s = .ok (clean_sequence s) := by
  unfold validate_sequence
  rw [if_neg (by simp [h1]), if_neg (by omega), if_neg (by omega)]

theorem validate_sequence_eq_invalidChars {s : List Char}
    (h : matches_aa_pattern (clean_sequence s) = false) :
    validate_sequence s = .invalidChars := by
  unfold validate_sequence
  rw [if_pos (by simp [h])]

theorem validate_sequence_ok_inv {s q : List Char}
    (h : validate_sequence s = .ok q) :
    q = clean_sequence s ∧ matches_aa_pattern (clean_sequence s) = true ∧
      10 ≤ q.length ∧ q.length ≤ 1000 := by
  unfold validate_sequence at h
  by_cases hm : matches_aa_pattern (clean_sequence s) = true
  · rw [if_neg (by simp [hm])] at h
    by_cases h10 : (clean_sequence s).length < 10
    · rw [if_pos h10] at h
      exact absurd h (by simp)
    · rw [if_neg h10] at h
      by_cases h1000 : (clean_sequence s).length > 1000
      · rw [if_pos h1000] at h
        exact absurd h (by simp)
      · rw [if_neg h1000] at h
        have hq : q = clean_sequence s := by
          cases h
          rfl
        subst hq
        exact ⟨rfl, hm, by omega, by omega⟩
  · rw [if_pos (by simp [Bool.not_eq_true] at hm ⊢; exact hm)] at h
    exact absurd h (by simp)

theorem run_predict_action_invalid {env : Env} {txt : List Char} {style : String}
    (hv : validate_sequence txt = .invalidChars) :
    run_predict_action env txt style = { validation := .invalidChars } := by
  unfold run_predict_action
  rw [hv]
  rfl

theorem run_predict_action_httpFail {env : Env} {txt q : List Char} {style : String}
    (hv : validate_sequence txt = .ok q)
    (hfail : requestFails (env.http q) = true) :
    run_predict_action env txt style =
      { validation := .ok q, predictCalls := [q], predictErrorShown := true } := by
  have hlen := (validate_sequence_ok_inv hv).2.2.1
  have hq : q.isEmpty = false := by
    cases q
    · simp at hlen
    · rfl
  have hpr : predict_structure env.http q = { pdb := none, errorShown := true } := by
    unfold predict_structure
    unfold requestFails at hfail
    cases hh : env.http q with
    | transportError msg => rfl
    | response status body =>
      rw [hh] at hfail
      have hfail2 : raise_for_status_raises status = true := hfail
      simp [hfail2]
  simp only [run_predict_action, hv, validationValue, hq, Bool.false_eq_true,
    if_false, hpr]

theorem run_predict_action_success {env : Env} {txt q : List Char} {style : String}
    {status : Nat} {p : List Char} {bf : List ℚ}
    (hv : validate_sequence txt = .ok q)
    (hh : env.http q = .response status p)
    (hs : raise_for_status_raises status = false)
    (hp : p ≠ [])
    (hf : env.fileBFactors = some bf) :
    run_predict_action env txt style =
      { validation := .ok q, predictCalls := [q], predictErrorShown := false,
        successShown := true,
        renderCalls := [render_mol p style],
        plddtShown := some (listMean bf),
        downloadPayload := some p,
        analyzeCalls := [q],
        analysisWarning := env.biopythonAvailable && !env.analysisOk,
        analysisInfoShown := !env.biopythonAvailable } := by
  have hlen := (validate_sequence_ok_inv hv).2.2.1
  have hq : q.isEmpty = false := by
    cases q
    · simp at hlen
    · rfl
  have hpe : p.isEmpty = false := by
    cases p
    · exact absurd rfl hp
    · rfl
  have hpr : predict_structure env.http q = { pdb := some p, errorShown := false } := by
    unfold predict_structure
    rw [hh]
    simp only [hs, Bool.false_eq_true, if_false]
  simp only [run_predict_action, hv, validationValue, hq, Bool.false_eq_true,
    if_false, hpr, hpe, hf]

/-! Claims. -/

set_option maxRecDepth 100000

/-- C1: every input string whose form after removing space characters and
uppercasing has length between 10 and 1000 inclusive and contains only
letters of the 20-letter amino-acid alphabet is accepted by
`validate_sequence`, which returns exactly that cleaned string. -/
theorem claim_C1_validate_accepts_valid (s : List Char)
    (h1 : (clean_sequence s).all isAmino = true)
    (h2 : 10 ≤ (clean_sequence s).length)
    (h3 : (clean_sequence s).length ≤ 1000) :
    validate_sequence s = .ok (clean_sequence s) :=
  validate_sequence_eq_ok
    (matches_aa_pattern_of_all_amino h1
      (by intro hnil; rw [hnil] at h2; simp at h2))
    h2 h3

/-- Witness for C1: a concrete lowercase input with spaces is accepted and
returned cleaned. -/
theorem claim_C1_witness :
    validate_sequence "mgss hhhhhh".data = .ok ("MGSSHHHHHH".data) := by
  have h := claim_C1_validate_accepts_valid "mgss hhhhhh".data
    (by decide) (by decide) (by decide)
  rw [h]
  decide

/-- C2 counterexample: the input `"ACDEFGHIKL\n"` has, after cleaning, a
character (the newline) outside the 20-letter alphabet, yet
`validate_sequence` accepts it (Python's `$` matches just before a trailing
newline) and the pipeline does invoke `predict_structure` on it. -/
theorem claim_C2_counterexample :
    (clean_sequence "ACDEFGHIKL\n".data).all isAmino = false ∧
    validate_sequence "ACDEFGHIKL\n".data = .ok ("ACDEFGHIKL\n".data) ∧
    (run_predict_action (testEnv (.response 200 "MOCK PDB".data) true true)
        "ACDEFGHIKL\n".data "Stick").predictCalls = ["ACDEFGHIKL\n".data] := by
  refine ⟨by decide, by decide, by decide⟩

/-- C2 amended: for every input whose cleaned form fails the anchored
pattern check (it is empty, or contains a character outside the 20-letter
alphabet anywhere except as a single trailing newline), `validate_sequence`
rejects with the invalid-sequence error and `predict_structure` is never
invoked. -/
theorem claim_C2_amended (env : Env) (s : List Char) (style : String)
    (h : matches_aa_pattern (clean_sequence s) = false) :
    validate_sequence s = .invalidChars ∧
    (run_predict_action env s style).predictCalls = [] := by
  have hv := validate_sequence_eq_invalidChars h
  exact ⟨hv, by rw [run_predict_action_invalid hv]⟩

/-- Witness for the amended C2 at a concrete bad input. -/
theorem claim_C2_witness :
    validate_sequence "ACDB1!".data = .invalidChars ∧
    (run_predict_action (testEnv (.response 200 "MOCK PDB".data) true true)
        "ACDB1!".data "Stick").predictCalls = [] :=
  claim_C2_amended _ _ _ (by decide)

/-- C3: for an all-alphabet cleaned form, length 9 is rejected as too
short, length 1001 as too long, and lengths 10 and 1000 are accepted (the
bounds are inclusive). -/
theorem claim_C3_length_bounds (s : List Char)
    (h : (clean_sequence s).all isAmino = true) :
    ((clean_sequence s).length = 9 → validate_sequence s = .tooShort) ∧
    ((clean_sequence s).length = 1001 → validate_sequence s = .tooLong) ∧
    ((clean_sequence s).length = 10 →
      validate_sequence s = .ok (clean_sequence s)) ∧
    ((clean_sequence s).length = 1000 →
      validate_sequence s = .ok (clean_sequence s)) := by
  refine ⟨?_, ?_, ?_, ?_⟩
  · intro h9
    have hm := matches_aa_pattern_of_all_amino h
      (by intro hnil; rw [hnil] at h9; simp at h9)
    unfold validate_sequence
    rw [if_neg (by simp [hm]), if_pos (by omega)]
  · intro h1001
    have hm := matches_aa_pattern_of_all_amino h
      (by intro hnil; rw [hnil] at h1001; simp at h1001)
    unfold validate_sequence
    rw [if_neg (by simp [hm]), if_neg (by omega), if_pos (by omega)]
  · intro h10
    have hm := matches_aa_pattern_of_all_amino h
      (by intro hnil; rw [hnil] at h10; simp at h10)
    exact validate_sequence_eq_ok hm (by omega) (by omega)
  · intro h1000
    have hm := matches_aa_pattern_of_all_amino h
      (by intro hnil; rw [hnil] at h1000; simp at h1000)
    exact validate_sequence_eq_ok hm (by omega) (by omega)

/-- Witness for C3 at concrete all-`'A'` sequences of lengths 9, 1001, 10
and 1000. -/
theorem claim_C3_witness :
    validate_sequence (List.replicate 9 'A') = .tooShort ∧
    validate_sequence (List.replicate 1001 'A') = .tooLong ∧
    validate_sequence (List.replicate 10 'A') =
      .ok (clean_sequence (List.replicate 10 'A')) ∧
    validate_sequence (List.replicate 1000 'A') =
      .ok (clean_sequence (List.replicate 1000 'A')) := by
  refine ⟨(claim_C3_length_bounds _ ?_).1 ?_, (claim_C3_length_bounds _ ?_).2.1 ?_,
    (claim_C3_length_bounds _ ?_).2.2.1 ?_, (claim_C3_length_bounds _ ?_).2.2.2 ?_⟩
  all_goals decide

/-- C9 counterexample: the input `"ACD\n"` has, after cleaning, a character
(the newline) outside the 20-letter alphabet, yet the rejection reported is
the too-short one, not the invalid-characters one: the trailing newline is
tolerated by the pattern check and the length check fires instead. -/
theorem claim_C9_counterexample :
    ('\n' ∈ clean_sequence "ACD\n".data) ∧ isAmino '\n' = false ∧
    validate_sequence "ACD\n".data = .tooShort := by
  refine ⟨by decide, by decide, by decide⟩

/-- C9 amended: the pattern check does come before the length checks — any
input whose cleaned form fails the pattern (it is empty, or has an
out-of-alphabet character other than a single trailing newline) is rejected
as invalid characters and never as too short or too long, whatever its
length; in particular the empty string is rejected as invalid characters.
A cleaned form whose only out-of-alphabet character is a single trailing
newline, however, passes the pattern check and falls through to the length
checks. -/
theorem claim_C9_amended :
    (∀ s : List Char, matches_aa_pattern (clean_sequence s) = false →
      validate_sequence s = .invalidChars ∧
      validate_sequence s ≠ .tooShort ∧ validate_sequence s ≠ .tooLong) ∧
    validate_sequence [] = .invalidChars := by
  constructor
  · intro s h
    have hv := validate_sequence_eq_invalidChars h
    exact ⟨hv, by rw [hv]; decide, by rw [hv]; decide⟩
  · decide

/-- Witness for the amended C9: a short input with out-of-alphabet
characters is rejected as invalid characters, not as too short. -/
theorem claim_C9_witness :
    validate_sequence "R2D2".data = .invalidChars ∧
    validate_sequence "R2D2".data ≠ .tooShort ∧
    validate_sequence "R2D2".data ≠ .tooLong :=
  claim_C9_amended.1 "R2D2".data (by decide)

/-- C10 counterexample: an input consisting of valid amino-acid letters
plus one newline — the input `"ACDEFGHIKV\n"` — is not rejected: the
newline survives cleaning, Python's `$` matches just before it, and
`validate_sequence` accepts the input, newline included. -/
theorem claim_C10_counterexample :
    ('\n' ∈ "ACDEFGHIKV\n".data) ∧
    ("ACDEFGHIKV\n".data.all (fun c => c == '\n' || isAmino c) = true) ∧
    validate_sequence "ACDEFGHIKV\n".data = .ok ("ACDEFGHIKV\n".data) := by
  refine ⟨by decide, by decide, by decide⟩

/-- C10 amended: the cleaning step removes only the space character and
uppercases — tabs and newlines are not removed (third conjunct shows a
concrete cleaning).  An input containing a tab anywhere, or a newline
anywhere other than as the last character of its cleaned form, is rejected
as invalid characters; but an input whose only non-alphabet character is a
single trailing newline is accepted when long enough, with the newline kept
in the returned sequence. -/
theorem claim_C10_amended :
    (∀ s : List Char, '\t' ∈ s → validate_sequence s = .invalidChars) ∧
    (∀ s : List Char, '\n' ∈ clean_sequence s →
      (clean_sequence s).getLast? ≠ some '\n' →
      validate_sequence s = .invalidChars) ∧
    clean_sequence " a\tc d\n e".data = "A\tCD\nE".data ∧
    validate_sequence "MKVLITFGHY\n".data = .ok ("MKVLITFGHY\n".data) := by
  refine ⟨?_, ?_, by decide, by decide⟩
  · intro s hs
    have hmem : '\t' ∈ clean_sequence s := by
      unfold clean_sequence
      exact List.mem_map.mpr
        ⟨'\t', List.mem_filter.mpr ⟨hs, by decide⟩, by decide⟩
    exact validate_sequence_eq_invalidChars
      (matches_aa_pattern_eq_false_of_bad hmem (by decide) (by decide))
  · intro s hmem hlast
    exact validate_sequence_eq_invalidChars
      (matches_aa_pattern_eq_false_of_newline hmem hlast)

/-- Witness for the amended C10: a tab among valid letters is rejected, and
an interior newline among valid letters is rejected. -/
theorem claim_C10_witness :
    validate_sequence "ACDEF\tGHIKL".data = .invalidChars ∧
    validate_sequence "ACD\nEFGHIKL".data = .invalidChars :=
  ⟨claim_C10_amended.1 "ACDEF\tGHIKL".data (by decide),
   claim_C10_amended.2.1 "ACD\nEFGHIKL".data (by decide) (by decide)⟩

/-- C4 counterexample: a 301 response is not a 2xx status, yet
`raise_for_status` raises only for 4xx/5xx, so `predict_structure` returns
the body with no error and the pipeline goes on to render it. -/
theorem claim_C4_counterexample :
    raise_for_status_raises 301 = false ∧ (301 < 200 ∨ 300 ≤ 301) ∧
    predict_structure (fun _ => .response 301 "MOVED PDB".data)
        "ACDEFGHIKL".data =
      { pdb := some ("MOVED PDB".data), errorShown := false } ∧
    (run_predict_action (testEnv (.response 301 "MOVED PDB".data) true true)
        "ACDEFGHIKL".data "Stick").predictErrorShown = false ∧
    (run_predict_action (testEnv (.response 301 "MOVED PDB".data) true true)
        "ACDEFGHIKL".data "Stick").renderCalls ≠ [] := by
  refine ⟨by decide, by decide, by decide, by decide, by decide⟩

/-- C4 amended: whenever the HTTP POST fails with a transport error
(including a timeout) or a 4xx/5xx status, `predict_structure` reports the
failure with an error message and returns no structure text, and the
pipeline halts: no render, no analysis, no download. -/
theorem claim_C4_amended (env : Env) (s q : List Char) (style : String)
    (hv : validate_sequence s = .ok q)
    (hfail : requestFails (env.http q) = true) :
    (run_predict_action env s style).predictErrorShown = true ∧
    (run_predict_action env s style).renderCalls = [] ∧
    (run_predict_action env s style).analyzeCalls = [] ∧
    (run_predict_action env s style).downloadPayload = none := by
  rw [run_predict_action_httpFail hv hfail]
  exact ⟨rfl, rfl, rfl, rfl⟩

/-- Witness for the amended C4 at a concrete timed-out request. -/
theorem claim_C4_witness :
    (run_predict_action (testEnv (.transportError "timed out".data) true true)
        "ACDEFGHIKL".data "Stick").predictErrorShown = true ∧
    (run_predict_action (testEnv (.transportError "timed out".data) true true)
        "ACDEFGHIKL".data "Stick").renderCalls = [] ∧
    (run_predict_action (testEnv (.transportError "timed out".data) true true)
        "ACDEFGHIKL".data "Stick").analyzeCalls = [] ∧
    (run_predict_action (testEnv (.transportError "timed out".data) true true)
        "ACDEFGHIKL".data "Stick").downloadPayload = none :=
  claim_C4_amended _ "ACDEFGHIKL".data "ACDEFGHIKL".data "Stick"
    (by decide) (by decide)

/-- C5 counterexample: on a successful prediction the analyzer is invoked
with the validated sequence, not with the structure text the predictor
returned, so the claim that render and analyze are each invoked "with that
structure text" fails at this concrete run. -/
theorem claim_C5_counterexample :
    (run_predict_action (testEnv (.response 200 "HEADER MOCK PDB".data) true true)
        "ACDEFGHIKL".data "Stick").analyzeCalls = ["ACDEFGHIKL".data] ∧
    "ACDEFGHIKL".data ≠ "HEADER MOCK PDB".data ∧
    (run_predict_action (testEnv (.response 200 "HEADER MOCK PDB".data) true true)
        "ACDEFGHIKL".data "Stick").downloadPayload =
      some ("HEADER MOCK PDB".data) := by
  refine ⟨by decide, by decide, by decide⟩

/-- C5 amended: when `predict_structure` succeeds with nonempty structure
text and the confidence-file load succeeds, `render_mol` is invoked exactly
once with that structure text, `analyze_protein_sequence` is invoked exactly
once with the validated sequence, and the download payload equals the
structure text byte for byte. -/
theorem claim_C5_amended (env : Env) (s q : List Char) (style : String)
    (status : Nat) (p : List Char) (bf : List ℚ)
    (hv : validate_sequence s = .ok q)
    (hh : env.http q = .response status p)
    (hs : raise_for_status_raises status = false)
    (hp : p ≠ [])
    (hf : env.fileBFactors = some bf) :
    (run_predict_action env s style).renderCalls = [render_mol p style] ∧
    (render_mol p style).model = p ∧
    (run_predict_action env s style).analyzeCalls = [q] ∧
    (run_predict_action env s style).downloadPayload = some p := by
  rw [run_predict_action_success hv hh hs hp hf]
  exact ⟨rfl, rfl, rfl, rfl⟩

/-- Witness for the amended C5 at a concrete successful prediction. -/
theorem claim_C5_witness :
    (run_predict_action (testEnv (.response 200 "END".data) true true)
        "ACDEFGHIKL".data "Sphere").renderCalls =
      [render_mol "END".data "Sphere"] ∧
    (render_mol "END".data "Sphere").model = "END".data ∧
    (run_predict_action (testEnv (.response 200 "END".data) true true)
        "ACDEFGHIKL".data "Sphere").analyzeCalls = ["ACDEFGHIKL".data] ∧
    (run_predict_action (testEnv (.response 200 "END".data) true true)
        "ACDEFGHIKL".data "Sphere").downloadPayload = some ("END".data) :=
  claim_C5_amended _ "ACDEFGHIKL".data "ACDEFGHIKL".data "Sphere" 200
    "END".data [50, 60] (by decide) rfl (by decide) (by decide) rfl

/-- C6: the reported plDDT is computed from the b-factor column of the
fixed file `predicted.pdb` — which this program never writes — and not from
the structure text just returned by `predict_structure`: two runs that
differ only in the returned structure text report the same score, namely
the mean of the file's column. -/
theorem claim_C6_file_bug :
    ("ATOM AAAA".data ≠ ("ATOM BBBB".data : List Char)) ∧
    (run_predict_action (testEnv (.response 200 "ATOM AAAA".data) true true)
        "ACDEFGHIKL".data "Stick").plddtShown = some (listMean [50, 60]) ∧
    (run_predict_action (testEnv (.response 200 "ATOM BBBB".data) true true)
        "ACDEFGHIKL".data "Stick").plddtShown = some (listMean [50, 60]) ∧
    listMean [50, 60] = 55 := by
  refine ⟨by decide, rfl, rfl, ?_⟩
  show ((50 : ℚ) + (60 + 0)) / ((2 : ℕ) : ℚ) = 55
  norm_num

/-- C7: whenever the analyzer is invoked (Biopython present) and its
internal computation raises, only a non-blocking warning is shown; the
action does not abort, and for that same action the rendering happened and
the structure text was offered for download. -/
theorem claim_C7_analysis_warning (env : Env) (s q : List Char) (style : String)
    (status : Nat) (p : List Char) (bf : List ℚ)
    (hv : validate_sequence s = .ok q)
    (hh : env.http q = .response status p)
    (hs : raise_for_status_raises status = false)
    (hp : p ≠ [])
    (hf : env.fileBFactors = some bf)
    (hbio : env.biopythonAvailable = true)
    (herr : env.analysisOk = false) :
    (run_predict_action env s style).analyzeCalls = [q] ∧
    (run_predict_action env s style).analysisWarning = true ∧
    (run_predict_action env s style).renderCalls = [render_mol p style] ∧
    (run_predict_action env s style).downloadPayload = some p ∧
    (run_predict_action env s style).crashed = false := by
  rw [run_predict_action_success hv hh hs hp hf]
  refine ⟨rfl, ?_, rfl, rfl, rfl⟩
  simp [hbio, herr]

/-- Witness for C7 at a concrete run whose analysis computation raises. -/
theorem claim_C7_witness :
    (run_predict_action (testEnv (.response 200 "PDB TEXT".data) true false)
        "ACDEFGHIKL".data "Cross").analyzeCalls = ["ACDEFGHIKL".data] ∧
    (run_predict_action (testEnv (.response 200 "PDB TEXT".data) true false)
        "ACDEFGHIKL".data "Cross").analysisWarning = true ∧
    (run_predict_action (testEnv (.response 200 "PDB TEXT".data) true false)
        "ACDEFGHIKL".data "Cross").renderCalls =
      [render_mol "PDB TEXT".data "Cross"] ∧
    (run_predict_action (testEnv (.response 200 "PDB TEXT".data) true false)
        "ACDEFGHIKL".data "Cross").downloadPayload = some ("PDB TEXT".data) ∧
    (run_predict_action (testEnv (.response 200 "PDB TEXT".data) true false)
        "ACDEFGHIKL".data "Cross").crashed = false :=
  claim_C7_analysis_warning _ "ACDEFGHIKL".data "ACDEFGHIKL".data "Cross" 200
    "PDB TEXT".data [50, 60] (by decide) rfl (by decide) (by decide) rfl rfl rfl

/-- C8: `render_mol` maps every key outside the five-element style set to
the Cartoon/Spectrum mode, and maps each of the five keys to exactly the
mode of the fixed table: cartoon coloured by spectrum, stick, sphere at
half scale, cross at unit scale, ribbon. -/
theorem claim_C8_style_table :
    (∀ (pdb : List Char) (key : String),
        key ∉ ["Cartoon (Spectrum)", "Stick", "Sphere", "Cross", "Ribbon"] →
        (render_mol pdb key).style = .cartoon "spectrum".data) ∧
    (∀ pdb : List Char,
        (render_mol pdb "Cartoon (Spectrum)").style = .cartoon "spectrum".data) ∧
    (∀ pdb : List Char, (render_mol pdb "Stick").style = .stick) ∧
    (∀ pdb : List Char, (render_mol pdb "Sphere").style = .sphere (1 / 2)) ∧
    (∀ pdb : List Char, (render_mol pdb "Cross").style = .cross 1) ∧
    (∀ pdb : List Char, (render_mol pdb "Ribbon").style = .ribbon) := by
  refine ⟨?_, fun _ => rfl, fun _ => rfl, fun _ => rfl, fun _ => rfl, fun _ => rfl⟩
  intro pdb key hk
  simp only [List.mem_cons, List.not_mem_nil, or_false, not_or] at hk
  obtain ⟨h1, h2, h3, h4, h5⟩ := hk
  simp [render_mol, style_options, h1, h2, h3, h4, h5]

/-- Witness for C8: the unrecognized key `"cartoon"` (the function's own
default argument, which is not one of the five dict keys) falls back to
Cartoon/Spectrum. -/
theorem claim_C8_witness :
    (render_mol [] "cartoon").style = .cartoon "spectrum".data :=
  claim_C8_style_table.1 [] "cartoon" (by decide)

end PSP
